import Mathlib

/-!
Verification of the Herald ranking engine and its citation-authority
subsystem, as a shallow embedding of the Python source.

Sources embedded:
- src/src/utils/citation_fetcher.py (CitationFetcher)
- src/src/ranking_engine/ranker.py (ArticleRanker)
- src/src/utils/config_loader.py (ConfigLoader)

Modelling conventions:
- Python dicts holding articles become a `Document` record; a field that is
  absent or None is `Option.none`.
- Python floats become real numbers.
- The external Semantic Scholar HTTP endpoints become a `Network` oracle
  giving, for each request, the response the service would return.
- Functions that may raise become `Except`-valued; exceptions the source
  catches are folded into the corresponding branch.
- Network requests performed by a call are returned as an explicit list,
  in the order the source issues them.
-/

namespace Herald

/-- An article record: the fields of the Python article dict that the
ranking engine and citation fetcher read or write.  Absent-or-None is
`none`. -/
structure Document where
  title : Option String
  abstract : Option String
  published : Option String
  doi : Option String
  arxiv_id : Option String
  citation_count : Option Nat
deriving DecidableEq

/-- A network request issued by the citation fetcher: one of the three
Semantic Scholar endpoints (lookup by DOI, lookup by arXiv id, title
search). -/
inductive NetReq where
  | doi (id : String)
  | arxiv (id : String)
  | search (title : String)
deriving DecidableEq

/-- Response of a single-paper endpoint (DOI / arXiv lookup):
`status200 v` is an HTTP 200 whose body's citationCount field is `v`
(`data.get('citationCount', 0)` already applied, so a missing field is
`some 0` and a JSON null is `none`); `status404` is HTTP 404; `statusOther`
is any other status; `exn` is a raised exception (timeout, transport
error). -/
inductive NetResp where
  | status200 (citationCount : Option Nat)
  | status404
  | statusOther (code : Nat)
  | exn
deriving DecidableEq

/-- Response of the title-search endpoint: `status200 papers` is an HTTP
200 whose body holds the returned papers as (title, citationCount) pairs;
`statusNon200` any other status; `exn` a raised exception. -/
inductive SearchResp where
  | status200 (papers : List (String × Option Nat))
  | statusNon200 (code : Nat)
  | exn
deriving DecidableEq

/-- The external registry, as an oracle from requests to responses. -/
structure Network where
  doiResp : String → NetResp
  arxivResp : String → NetResp
  searchResp : String → SearchResp

/-- CitationFetcher._fetch_by_doi (citation_fetcher.py:75-93): 200 yields
the citationCount field, 404 and any other status yield None, exceptions
are caught and yield None. -/
def fetch_by_doi (net : Network) (doi : String) : Option Nat :=
  match net.doiResp doi with
  | NetResp.status200 v => v
  | NetResp.status404 => none
  | NetResp.statusOther _ => none
  | NetResp.exn => none

/-- CitationFetcher._fetch_by_arxiv_id (citation_fetcher.py:95-113): same
shape as the DOI lookup. -/
def fetch_by_arxiv_id (net : Network) (arxiv_id : String) : Option Nat :=
  match net.arxivResp arxiv_id with
  | NetResp.status200 v => v
  | NetResp.status404 => none
  | NetResp.statusOther _ => none
  | NetResp.exn => none

/-- CitationFetcher._fetch_by_title (citation_fetcher.py:115-138): on 200
take the first paper, accept its count only when its title matches the
query title case-insensitively; everything else yields None. -/
def fetch_by_title (net : Network) (title : String) : Option Nat :=
  match net.searchResp title with
  | SearchResp.status200 papers =>
    match papers with
    | [] => none
    | p :: _ => if p.1.toLower = title.toLower then p.2 else none
  | SearchResp.statusNon200 _ => none
  | SearchResp.exn => none

/-- The "Method 1: Try DOI" step of get_citation_count
(citation_fetcher.py:52-57): issue a DOI request when the article has a
truthy (present, non-empty) doi field.  The second component records the
network requests issued. -/
def tryDoi (net : Network) (a : Document) : Option Nat × List NetReq :=
  match a.doi with
  | some d => if d = "" then (none, []) else (fetch_by_doi net d, [NetReq.doi d])
  | none => (none, [])

/-- The "Method 2: Try arXiv ID" step (citation_fetcher.py:59-64). -/
def tryArxiv (net : Network) (a : Document) : Option Nat × List NetReq :=
  match a.arxiv_id with
  | some x => if x = "" then (none, []) else (fetch_by_arxiv_id net x, [NetReq.arxiv x])
  | none => (none, [])

/-- The "Method 3: Try searching by title" step
(citation_fetcher.py:66-70). -/
def tryTitle (net : Network) (a : Document) : Option Nat × List NetReq :=
  match a.title with
  | some t => if t = "" then (none, []) else (fetch_by_title net t, [NetReq.search t])
  | none => (none, [])

/-- CitationFetcher.get_citation_count (citation_fetcher.py:35-73): return
the cached count when the article carries a non-null citation_count,
otherwise run the DOI / arXiv / title fallback chain, short-circuiting on
the first non-None result.  Also returns the network requests issued, in
order. -/
def get_citation_count (net : Network) (a : Document) : Option Nat × List NetReq :=
  match a.citation_count with
  | some c => (some c, [])
  | none =>
    let r1 := tryDoi net a
    match r1.1 with
    | some c => (some c, r1.2)
    | none =>
      let r2 := tryArxiv net a
      match r2.1 with
      | some c => (some c, r1.2 ++ r2.2)
      | none =>
        let r3 := tryTitle net a
        match r3.1 with
        | some c => (some c, r1.2 ++ r2.2 ++ r3.2)
        | none => (none, r1.2 ++ r2.2 ++ r3.2)

/-- The configuration values the ranker reads (config_loader.py defaults:
decay 730, max citations 1000, weights 0.5/0.3/0.2, citation enabled).
`citation_enabled` models `config.is_citation_enabled()` and `has_fetcher`
models `self.citation_fetcher is None` (ranker.py:160). -/
structure RankConfig where
  citation_enabled : Bool
  has_fetcher : Bool
  recency_decay_days : ℝ
  normalization_max_citations : Nat
  default_weights : List (String × ℝ)

/-- The ranker's environment: its configuration, the external registry,
and the two external collaborators the spec places out of scope, as
oracles.  `parseAge s` is the composite
`(utcnow() - datetime.fromisoformat(s.replace('Z','+00:00'))).days`
(ranker.py:138-141): `none` models the ValueError/TypeError the source
catches, `some n` the (possibly negative) whole-day age.  `relevance a q`
is the composite of the two embedding calls and the cosine similarity
(ranker.py:114-122): `Except.error` models an exception raised by the
embedding collaborator. -/
structure RankEnv where
  cfg : RankConfig
  net : Network
  parseAge : String → Option Int
  relevance : Document → String → Except String ℝ

/-- The pure recency normalizer of ranker.py:144: exp(-age/decay). -/
noncomputable def recency (age_days decay_days : ℝ) : ℝ :=
  Real.exp (-age_days / decay_days)

/-- The pure authority normalizer of ranker.py:175-177:
min(1, max(0, log(1+count)/log(1+max_citations))). -/
noncomputable def authority (count max_citations : Nat) : ℝ :=
  min 1 (max 0 (Real.log (1 + (count : ℝ)) / Real.log (1 + (max_citations : ℝ))))

/-- ArticleRanker._calculate_recency_score (ranker.py:124-148): 0.0 when
the published field is absent, 0.0 when parsing raises, otherwise the
exponential decay of the age in days. -/
noncomputable def calculate_recency_score (env : RankEnv) (a : Document) : ℝ :=
  match a.published with
  | none => 0
  | some s =>
    match env.parseAge s with
    | none => 0
    | some days => recency (days : ℝ) env.cfg.recency_decay_days

/-- ArticleRanker._calculate_citation_score (ranker.py:150-177): 0.0 when
citations are disabled or no fetcher exists; otherwise use the count
cached on the article, or resolve it through the fetcher and cache the
result back onto the article when resolved; a missing or zero count
scores 0.0, a positive count is log-normalized.  Returns
(score, possibly-updated article, network requests issued). -/
noncomputable def calculate_citation_score (env : RankEnv) (a : Document) :
    ℝ × Document × List NetReq :=
  if !env.cfg.citation_enabled || !env.cfg.has_fetcher then (0, a, [])
  else
    match a.citation_count with
    | some c =>
      if c = 0 then (0, a, [])
      else (authority c env.cfg.normalization_max_citations, a, [])
    | none =>
      let r := get_citation_count env.net a
      match r.1 with
      | some c =>
        if c = 0 then (0, { a with citation_count := some c }, r.2)
        else (authority c env.cfg.normalization_max_citations,
              { a with citation_count := some c }, r.2)
      | none => (0, a, r.2)

/-- Errors that can escape ArticleRanker._calculate_score: an exception
raised by the embedding collaborator (ranker.py:114-115, not caught) and
the KeyError of scores[factor] (ranker.py:96-99). -/
inductive ScoreError where
  | embeddingFailure (msg : String)
  | keyError (key : String)
deriving DecidableEq

/-- The relevance branch of _calculate_score (ranker.py:87-90): 0.0 when
the query is absent or empty (falsy), otherwise the embedding-based
similarity, whose exceptions propagate. -/
noncomputable def relevance_of (env : RankEnv) (a : Document) (q : Option String) :
    Except ScoreError ℝ :=
  match q with
  | none => Except.ok 0
  | some s =>
    if s = "" then Except.ok 0
    else
      match env.relevance a s with
      | Except.error m => Except.error (ScoreError.embeddingFailure m)
      | Except.ok v => Except.ok v

/-- The scores dict built by _calculate_score (ranker.py:85-94): exactly
the keys relevance, recency, citations. -/
def scoresMap (rel recS cit : ℝ) : String → Option ℝ := fun k =>
  if k = "relevance" then some rel
  else if k = "recency" then some recS
  else if k = "citations" then some cit
  else none

/-- The total of _calculate_score (ranker.py:96-99): fold over the weight
map's entries in order, adding scores[factor] * weight, failing with a
KeyError at the first factor absent from the scores dict. -/
noncomputable def totalScore (scores : String → Option ℝ) :
    List (String × ℝ) → ℝ → Except ScoreError ℝ
  | [], acc => Except.ok acc
  | kw :: rest, acc =>
    match scores kw.1 with
    | some s => totalScore scores rest (acc + s * kw.2)
    | none => Except.error (ScoreError.keyError kw.1)

/-- ArticleRanker._calculate_score (ranker.py:68-101): relevance first
(may raise), then recency, then citations (may mutate the article), then
the weighted total (may raise KeyError).  Returns the total and the
possibly-updated article. -/
noncomputable def calculate_score (env : RankEnv) (a : Document) (q : Option String)
    (w : List (String × ℝ)) : Except ScoreError (ℝ × Document) :=
  match relevance_of env a q with
  | Except.error e => Except.error e
  | Except.ok rel =>
    match totalScore (scoresMap rel (calculate_recency_score env a)
        (calculate_citation_score env a).1) w 0 with
    | Except.error e => Except.error e
    | Except.ok total => Except.ok (total, (calculate_citation_score env a).2.1)

/-- The scoring loop of rank_articles (ranker.py:61-64): score each
article in order, collecting (article, score) pairs; the first exception
aborts the loop. -/
noncomputable def scoreBatch (env : RankEnv) (q : Option String)
    (w : List (String × ℝ)) : List Document → Except ScoreError (List (Document × ℝ))
  | [] => Except.ok []
  | a :: as =>
    match calculate_score env a q w with
    | Except.error e => Except.error e
    | Except.ok p =>
      match scoreBatch env q w as with
      | Except.error e => Except.error e
      | Except.ok rest => Except.ok ((p.2, p.1) :: rest)

/-- The weights resolution of ranker.py:59: `weights or
self.config.get_ranking_weights()` — None and the empty (falsy) dict both
fall back to the configured weights. -/
def effectiveWeights (cfg : RankConfig) : Option (List (String × ℝ)) → List (String × ℝ)
  | none => cfg.default_weights
  | some [] => cfg.default_weights
  | some (kw :: rest) => kw :: rest

/-- The Bool comparison behind `sorted(..., key=lambda x: x[1],
reverse=True)` (ranker.py:66): x precedes y when x's score is at least
y's. -/
noncomputable def scoreGE (x y : Document × ℝ) : Bool :=
  decide (y.2 ≤ x.2)

/-- ArticleRanker.rank_articles (ranker.py:38-66): empty input yields the
empty list; otherwise resolve the weights, score every article, and
stable-sort the (article, score) pairs by descending score (Python's
sorted is a stable sort; reverse=True preserves stability). -/
noncomputable def rank_articles (env : RankEnv) (articles : List Document)
    (query : Option String) (weights : Option (List (String × ℝ))) :
    Except ScoreError (List (Document × ℝ)) :=
  if articles.isEmpty then Except.ok []
  else
    match scoreBatch env query (effectiveWeights env.cfg weights) articles with
    | Except.error e => Except.error e
    | Except.ok scored => Except.ok (scored.mergeSort scoreGE)

/-- The recognized scalar configuration keys a user config file may
override (config_loader.py:75-103), each `none` when the key is absent
from the file. -/
structure UserConfig where
  recency_decay_days : Option ℝ
  citation_enabled : Option Bool
  rate_limit_delay : Option ℝ
  normalization_max_citations : Option Nat

/-- The corresponding loaded values after merging with defaults. -/
structure LoadedConfig where
  recency_decay_days : ℝ
  citation_enabled : Bool
  rate_limit_delay : ℝ
  normalization_max_citations : Nat

/-- The defaults of ConfigLoader._get_default_config
(config_loader.py:75-103). -/
noncomputable def default_config : LoadedConfig :=
  { recency_decay_days := 730
    citation_enabled := true
    rate_limit_delay := 0.1
    normalization_max_citations := 1000 }

/-- The effect of ConfigLoader._deep_merge (config_loader.py:32-53) on one
recognized scalar key: a value present in the user config overrides the
default. -/
def mergeField {α : Type} (dflt : α) : Option α → α
  | none => dflt
  | some v => v

/-- ConfigLoader.load (config_loader.py:55-73), restricted to the
recognized scalar keys: a missing file yields the defaults; a file whose
parse raises is caught and yields the defaults; otherwise the parsed user
config is deep-merged over the defaults.  No value is validated: the
function always returns a configuration and signals no error. -/
noncomputable def config_load (fileExists : Bool)
    (parsed : Except String UserConfig) : LoadedConfig :=
  if !fileExists then default_config
  else
    match parsed with
    | Except.error _ => default_config
    | Except.ok u =>
      { recency_decay_days := mergeField default_config.recency_decay_days u.recency_decay_days
        citation_enabled := mergeField default_config.citation_enabled u.citation_enabled
        rate_limit_delay := mergeField default_config.rate_limit_delay u.rate_limit_delay
        normalization_max_citations :=
          mergeField default_config.normalization_max_citations u.normalization_max_citations }

/-- The mutable state of CitationFetcher's rate limiter
(citation_fetcher.py:24-25) together with a logical wall clock:
`last_request_time` is the instance field, `clock` the current value of
time.time(). -/
structure FetcherState where
  last_request_time : ℝ
  clock : ℝ

/-- CitationFetcher._rate_limit (citation_fetcher.py:27-33) over the
logical clock: read the current time, sleep for the remaining delta when
the elapsed time since the last request is below the delay (sleeping
advances the clock by the requested amount), then record the current time
as the last request time. -/
noncomputable def rate_limit (delay : ℝ) (s : FetcherState) : FetcherState :=
  let current_time := s.clock
  let time_since_last := current_time - s.last_request_time
  let slept :=
    if time_since_last < delay then { s with clock := s.clock + (delay - time_since_last) }
    else s
  { slept with last_request_time := slept.clock }

/-- A run of consecutive lookups through one fetcher instance: each entry
of `drifts` is the (arbitrary) time that passes between the previous
event and the next call's entry into _rate_limit; the returned list holds
the clock value at which each network request is issued (immediately
after its _rate_limit returns).  Models N consecutive calls to
_fetch_by_* on one client (citation_fetcher.py:78, 98, 118). -/
noncomputable def runCalls (delay : ℝ) : FetcherState → List ℝ → List ℝ
  | _, [] => []
  | s, d :: ds =>
    let s' := rate_limit delay { s with clock := s.clock + d }
    s'.clock :: runCalls delay s' ds

/-- Claim C5: for every count and every normalization maximum m > 0, the
authority score clamp(log(1+count)/log(1+m), 0, 1) is 0 at count 0, is
non-decreasing in the count for fixed m, and never exceeds 1, including
for counts above m. -/
theorem C5_authority_normalizer (m : Nat) (hm : 0 < m) :
    authority 0 m = 0
    ∧ (∀ c₁ c₂ : Nat, c₁ ≤ c₂ → authority c₁ m ≤ authority c₂ m)
    ∧ (∀ c : Nat, authority c m ≤ 1) := by
  have hm1 : (1 : ℝ) < 1 + (m : ℝ) := by
    have : (1 : ℝ) ≤ (m : ℝ) := by exact_mod_cast hm
    linarith
  have hL : 0 < Real.log (1 + (m : ℝ)) := Real.log_pos hm1
  refine ⟨?_, ?_, ?_⟩
  · simp [authority, Real.log_one]
  · intro c₁ c₂ h
    unfold authority
    apply min_le_min le_rfl
    apply max_le_max le_rfl
    apply div_le_div_of_nonneg_right ?_ hL.le
    apply Real.log_le_log (by positivity)
    have : (c₁ : ℝ) ≤ (c₂ : ℝ) := by exact_mod_cast h
    linarith
  · intro c
    exact min_le_left _ _

/-- Witness for C5 at m = 1. -/
theorem C5_witness :
    authority 0 1 = 0 ∧ authority 2 1 ≤ authority 3 1 ∧ authority 2000 1 ≤ 1 :=
  ⟨(C5_authority_normalizer 1 (by norm_num)).1,
   (C5_authority_normalizer 1 (by norm_num)).2.1 2 3 (by norm_num),
   (C5_authority_normalizer 1 (by norm_num)).2.2 2000⟩

/-- Claim C6: for every decay constant d > 0, the recency score
exp(-age/d) is 1 at age 0, strictly decreasing in the age for fixed d,
and tends to 0 as the age tends to +infinity. -/
theorem C6_recency_normalizer (d : ℝ) (hd : 0 < d) :
    recency 0 d = 1
    ∧ StrictAnti (fun age => recency age d)
    ∧ Filter.Tendsto (fun age => recency age d) Filter.atTop (nhds 0) := by
  refine ⟨?_, ?_, ?_⟩
  · simp [recency]
  · intro a b hab
    simp only [recency]
    apply Real.exp_lt_exp.mpr
    rw [neg_div, neg_div]
    exact neg_lt_neg ((div_lt_div_iff_of_pos_right hd).mpr hab)
  · have h1 : Filter.Tendsto (fun age : ℝ => -age / d) Filter.atTop Filter.atBot := by
      simp only [neg_div]
      exact Filter.tendsto_neg_atTop_atBot.comp
        (Filter.Tendsto.atTop_div_const hd Filter.tendsto_id)
    exact Real.tendsto_exp_atBot.comp h1

/-- Witness for C6 at d = 1. -/
theorem C6_witness :
    recency 0 1 = 1 ∧ recency 1 1 < recency 0 1
    ∧ Filter.Tendsto (fun age => recency age 1) Filter.atTop (nhds 0) :=
  ⟨(C6_recency_normalizer 1 (by norm_num)).1,
   (C6_recency_normalizer 1 (by norm_num)).2.1 (by norm_num : (0 : ℝ) < 1),
   (C6_recency_normalizer 1 (by norm_num)).2.2⟩

/-- Helper: on an article whose citation_count is cached (non-null), the
citation scorer issues no network request and leaves the article
unchanged. -/
theorem calculate_citation_score_cached (env : RankEnv) (a : Document) (c : Nat)
    (hcc : a.citation_count = some c) :
    (calculate_citation_score env a).2.1 = a ∧ (calculate_citation_score env a).2.2 = [] := by
  unfold calculate_citation_score
  rcases h : (!env.cfg.citation_enabled || !env.cfg.has_fetcher) with _ | _
  · simp only [h, Bool.false_eq_true, if_false, hcc]
    split <;> simp
  · simp [h]

/-- Helper: when the cache is empty, citations are active, and the fetcher
resolves a count, the citation scorer writes exactly that count onto the
article and issues the fetcher's requests. -/
theorem calculate_citation_score_resolved (env : RankEnv) (a : Document) (c : Nat)
    (hen : env.cfg.citation_enabled = true) (hf : env.cfg.has_fetcher = true)
    (hcc : a.citation_count = none) (hget : (get_citation_count env.net a).1 = some c) :
    (calculate_citation_score env a).2.1 = { a with citation_count := some c }
    ∧ (calculate_citation_score env a).2.2 = (get_citation_count env.net a).2 := by
  unfold calculate_citation_score
  simp only [hen, hf, Bool.not_true, Bool.or_self, Bool.false_eq_true, if_false, hcc, hget]
  split <;> simp

/-- Claim C3: with both a DOI and an arXiv id present and no cached count,
a not-found DOI lookup still attempts the arXiv lookup before any title
search, while a successful DOI lookup (non-null count) returns that count
immediately with the DOI request as the only network request. -/
theorem C3_fallback_order :
    (∀ (net : Network) (a : Document) (d x : String),
      a.citation_count = none → a.doi = some d → d ≠ "" →
      a.arxiv_id = some x → x ≠ "" →
      net.doiResp d = NetResp.status404 →
      (get_citation_count net a).2.take 2 = [NetReq.doi d, NetReq.arxiv x])
    ∧ (∀ (net : Network) (a : Document) (d : String) (c : Nat),
      a.citation_count = none → a.doi = some d → d ≠ "" →
      net.doiResp d = NetResp.status200 (some c) →
      get_citation_count net a = (some c, [NetReq.doi d])) := by
  constructor
  · intro net a d x hcc hdoi hd harx hx hresp
    cases hA : fetch_by_arxiv_id net x with
    | some c =>
      simp [get_citation_count, hcc, tryDoi, hdoi, hd, fetch_by_doi, hresp,
        tryArxiv, harx, hx, hA]
    | none =>
      cases hT : (tryTitle net a).1 with
      | some c =>
        simp [get_citation_count, hcc, tryDoi, hdoi, hd, fetch_by_doi, hresp,
          tryArxiv, harx, hx, hA, hT]
      | none =>
        simp [get_citation_count, hcc, tryDoi, hdoi, hd, fetch_by_doi, hresp,
          tryArxiv, harx, hx, hA, hT]
  · intro net a d c hcc hdoi hd hresp
    simp [get_citation_count, hcc, tryDoi, hdoi, hd, fetch_by_doi, hresp]

/-- Claim C4: an article already carrying a non-null cached count resolves
to that count with no network request; and once a first (ranker-level)
resolution has cached a freshly fetched count onto the article, a second
resolution issues no network request. -/
theorem C4_cached_count_short_circuits :
    (∀ (net : Network) (a : Document) (c : Nat),
      a.citation_count = some c →
      get_citation_count net a = (some c, []))
    ∧ (∀ (env : RankEnv) (a : Document) (c : Nat),
      env.cfg.citation_enabled = true → env.cfg.has_fetcher = true →
      a.citation_count = none →
      (get_citation_count env.net a).1 = some c →
      (calculate_citation_score env a).2.1.citation_count = some c
      ∧ (calculate_citation_score env (calculate_citation_score env a).2.1).2.2 = []) := by
  constructor
  · intro net a c hcc
    simp [get_citation_count, hcc]
  · intro env a c hen hf hcc hget
    have h1 := calculate_citation_score_resolved env a c hen hf hcc hget
    have h2 : (calculate_citation_score env a).2.1.citation_count = some c := by
      rw [h1.1]
    exact ⟨h2, (calculate_citation_score_cached env _ c h2).2⟩

/-- Concrete article with both identifiers and no cached count. -/
def docBoth : Document :=
  { title := some "T", abstract := none, published := none,
    doi := some "10.1/x", arxiv_id := some "2101.0001", citation_count := none }

/-- Concrete article with a cached count. -/
def docCached : Document :=
  { docBoth with citation_count := some 9 }

/-- Registry on which every lookup misses. -/
def net404 : Network :=
  { doiResp := fun _ => NetResp.status404,
    arxivResp := fun _ => NetResp.status404,
    searchResp := fun _ => SearchResp.exn }

/-- Registry on which the DOI lookup succeeds with count 5. -/
def net200 : Network :=
  { doiResp := fun _ => NetResp.status200 (some 5),
    arxivResp := fun _ => NetResp.status404,
    searchResp := fun _ => SearchResp.exn }

/-- Configuration with citations active and the documented defaults. -/
noncomputable def cfgCit : RankConfig :=
  { citation_enabled := true, has_fetcher := true, recency_decay_days := 730,
    normalization_max_citations := 1000,
    default_weights := [("relevance", 0.5), ("recency", 0.3), ("citations", 0.2)] }

/-- Environment with citations active over net200. -/
noncomputable def envCit : RankEnv :=
  { cfg := cfgCit, net := net200, parseAge := fun _ => none,
    relevance := fun _ _ => Except.ok 0 }

/-- Witness for C3 on concrete articles and registries. -/
theorem C3_witness :
    (get_citation_count net404 docBoth).2.take 2
      = [NetReq.doi "10.1/x", NetReq.arxiv "2101.0001"]
    ∧ get_citation_count net200 docBoth = (some 5, [NetReq.doi "10.1/x"]) :=
  ⟨C3_fallback_order.1 net404 docBoth "10.1/x" "2101.0001" rfl rfl (by decide) rfl
      (by decide) rfl,
   C3_fallback_order.2 net200 docBoth "10.1/x" 5 rfl rfl (by decide) rfl⟩

/-- Witness for C4 on a concrete cached article and a concrete
resolve-then-resolve-again run. -/
theorem C4_witness :
    get_citation_count net200 docCached = (some 9, [])
    ∧ ((calculate_citation_score envCit docBoth).2.1.citation_count = some 5
       ∧ (calculate_citation_score envCit
            (calculate_citation_score envCit docBoth).2.1).2.2 = []) :=
  ⟨C4_cached_count_short_circuits.1 net200 docCached 9 rfl,
   C4_cached_count_short_circuits.2 envCit docBoth 5 rfl rfl rfl (by decide)⟩

/-- Helper: _rate_limit records the (post-sleep) current time as the last
request time, so afterwards the two state components coincide. -/
theorem rate_limit_last_eq_clock (delay : ℝ) (s : FetcherState) :
    (rate_limit delay s).last_request_time = (rate_limit delay s).clock := rfl

/-- Helper: starting from a state whose last request time equals its
clock (the situation right after a previous call), the next call's
_rate_limit ends at least `delay` after the previous call, whatever time
`d` passed in between. -/
theorem rate_limit_clock_ge (delay d : ℝ) (s : FetcherState)
    (hs : s.last_request_time = s.clock) :
    s.clock + delay ≤ (rate_limit delay { s with clock := s.clock + d }).clock := by
  simp only [rate_limit]
  split
  · simp only
    linarith
  · rename_i h
    simp only at h ⊢
    simp only [not_lt] at h
    linarith

/-- Helper: consecutive network-call times of one fetcher instance are
spaced at least `delay` apart. -/
theorem runCalls_chain (delay : ℝ) : ∀ (ds : List ℝ) (s : FetcherState),
    List.Chain' (fun a b => a + delay ≤ b) (runCalls delay s ds)
  | [], _ => by simp [runCalls]
  | d :: ds, s => by
    rw [runCalls]
    apply List.chain'_cons'.mpr
    refine ⟨?_, runCalls_chain delay ds _⟩
    intro b hb
    cases ds with
    | nil => simp [runCalls] at hb
    | cons d' ds' =>
      rw [runCalls] at hb
      simp only [List.head?_cons, Option.mem_def, Option.some.injEq] at hb
      subst hb
      exact rate_limit_clock_ge delay d' _ (rate_limit_last_eq_clock delay _)

/-- Helper: a run of N lookups issues exactly N network calls. -/
theorem runCalls_length (delay : ℝ) : ∀ (ds : List ℝ) (s : FetcherState),
    (runCalls delay s ds).length = ds.length
  | [], _ => rfl
  | _ :: ds, s => by
    rw [runCalls]
    simp [runCalls_length delay ds]

/-- Helper: along a list whose consecutive elements are spaced at least r
apart, the last exceeds the first by at least (length - 1) * r. -/
theorem chain_head_getLast (r : ℝ) : ∀ (l : List ℝ),
    List.Chain' (fun a b => a + r ≤ b) l →
    ∀ t0 tN, l.head? = some t0 → l.getLast? = some tN →
    t0 + ((l.length - 1 : ℕ) : ℝ) * r ≤ tN
  | [] => by intro h t0 tN h0 hN; simp at h0
  | [a] => by
    intro h t0 tN h0 hN
    simp only [List.head?_cons, Option.some.injEq] at h0
    simp only [List.getLast?_singleton, Option.some.injEq] at hN
    subst h0; subst hN
    simp
  | a :: b :: l => by
    intro h t0 tN h0 hN
    simp only [List.head?_cons, Option.some.injEq] at h0
    subst h0
    have hc := List.chain'_cons.mp h
    have hN' : (b :: l).getLast? = some tN := by
      simpa [List.getLast?_cons_cons] using hN
    have ih := chain_head_getLast r (b :: l) hc.2 b tN rfl hN'
    simp only [List.length_cons, Nat.add_sub_cancel] at ih ⊢
    push_cast at ih ⊢
    linarith [hc.1]

/-- Claim C8: through one fetcher instance, every network call happens at
least `delay` after the previous one (the rate limiter blocks for the
remaining delta), so N consecutive lookups span wall-clock time at least
(N - 1) * delay, globally across all documents served by that instance
(the drifts `ds` are arbitrary, so the calls may belong to different
documents). -/
theorem C8_rate_limiting (delay : ℝ) (s : FetcherState) (ds : List ℝ) :
    List.Chain' (fun a b => a + delay ≤ b) (runCalls delay s ds)
    ∧ (∀ t0 tN, (runCalls delay s ds).head? = some t0 →
        (runCalls delay s ds).getLast? = some tN →
        t0 + ((ds.length - 1 : ℕ) : ℝ) * delay ≤ tN) := by
  refine ⟨runCalls_chain delay ds s, ?_⟩
  intro t0 tN h0 hN
  have h := chain_head_getLast delay _ (runCalls_chain delay ds s) t0 tN h0 hN
  rwa [runCalls_length] at h

/-- Witness for C8: two back-to-back lookups with delay 1 starting at
time 0 happen at times 1 and 2, one delay apart. -/
theorem C8_witness :
    List.Chain' (fun a b => a + 1 ≤ b) (runCalls 1 ⟨0, 0⟩ [0, 0])
    ∧ (1 : ℝ) + ((([(0 : ℝ), 0].length - 1 : ℕ)) : ℝ) * 1 ≤ 2 :=
  ⟨(C8_rate_limiting 1 ⟨0, 0⟩ [0, 0]).1,
   (C8_rate_limiting 1 ⟨0, 0⟩ [0, 0]).2 1 2
     (by norm_num [runCalls, rate_limit])
     (by norm_num [runCalls, rate_limit])⟩

/-- Counterexample for C7: loading a configuration file that sets
recency_decay_days to -5 completes normally and yields a running
configuration that carries the non-positive decay; nothing is rejected at
load time (ConfigLoader.load catches every exception and always installs
a configuration). -/
theorem C7_counterexample :
    (config_load true (Except.ok
      { recency_decay_days := some (-5), citation_enabled := none,
        rate_limit_delay := none,
        normalization_max_citations := none })).recency_decay_days = -5
    ∧ (-5 : ℝ) ≤ 0 := by
  constructor
  · rfl
  · norm_num

/-- Claim C7 as amended: a non-positive recency decay constant is NOT
rejected at load time: ConfigLoader.load performs no validation and
installs the value verbatim into the running configuration, so it can
only surface later, per scoring call. -/
theorem C7_decay_not_validated_at_load (u : UserConfig) (v : ℝ) (hv : v ≤ 0)
    (hu : u.recency_decay_days = some v) :
    (config_load true (Except.ok u)).recency_decay_days = v := by
  simp [config_load, mergeField, hu]

/-- Witness for the amended C7 at decay 0. -/
theorem C7_witness :
    (config_load true (Except.ok
      { recency_decay_days := some 0, citation_enabled := none,
        rate_limit_delay := none,
        normalization_max_citations := none })).recency_decay_days = 0 :=
  C7_decay_not_validated_at_load _ 0 (by norm_num) rfl

/-- The three signal names the scores dict of _calculate_score always
holds (ranker.py:85-94). -/
def validKeys : List String := ["relevance", "recency", "citations"]

/-- The first weight-map key outside the three signals, in iteration
order, if any. -/
def firstMissingKey : List (String × ℝ) → Option String
  | [] => none
  | kw :: rest => if kw.1 ∈ validKeys then firstMissingKey rest else some kw.1

/-- Helper: the scores dict is defined exactly on the three signal
names. -/
theorem scoresMap_isSome_iff (rel recS cit : ℝ) (k : String) :
    (scoresMap rel recS cit k).isSome = true ↔ k ∈ validKeys := by
  unfold scoresMap validKeys
  by_cases h1 : k = "relevance"
  · simp [h1]
  · by_cases h2 : k = "recency"
    · simp [h1, h2]
    · by_cases h3 : k = "citations" <;> simp [h1, h2, h3]

/-- Helper: a weight map whose keys all name signals folds to a total. -/
theorem totalScore_ok_of_keys (rel recS cit : ℝ) :
    ∀ (w : List (String × ℝ)) (acc : ℝ), (∀ kw ∈ w, kw.1 ∈ validKeys) →
    ∃ t, totalScore (scoresMap rel recS cit) w acc = Except.ok t
  | [], acc, _ => ⟨acc, rfl⟩
  | kw :: rest, acc, h => by
    have hv : kw.1 ∈ validKeys := h kw (List.mem_cons_self kw rest)
    have hs : (scoresMap rel recS cit kw.1).isSome = true :=
      (scoresMap_isSome_iff rel recS cit kw.1).mpr hv
    cases hm : scoresMap rel recS cit kw.1 with
    | none => rw [hm] at hs; simp at hs
    | some s =>
      obtain ⟨t, ht⟩ := totalScore_ok_of_keys rel recS cit rest (acc + s * kw.2)
        (fun kw' h' => h kw' (List.mem_cons_of_mem kw h'))
      refine ⟨t, ?_⟩
      unfold totalScore
      rw [hm]
      exact ht

/-- Helper: a successful fold means every weight-map key named a
signal. -/
theorem totalScore_ok_keys (rel recS cit : ℝ) :
    ∀ (w : List (String × ℝ)) (acc t : ℝ),
    totalScore (scoresMap rel recS cit) w acc = Except.ok t →
    ∀ kw ∈ w, kw.1 ∈ validKeys
  | [], _, _ => by intro _ kw hkw; simp at hkw
  | kw :: rest, acc, t => by
    intro h kw' hkw'
    unfold totalScore at h
    cases hm : scoresMap rel recS cit kw.1 with
    | none => rw [hm] at h; simp at h
    | some s =>
      rw [hm] at h
      rcases List.mem_cons.mp hkw' with h1 | h1
      · subst h1
        exact (scoresMap_isSome_iff rel recS cit kw'.1).mp (by rw [hm]; rfl)
      · exact totalScore_ok_keys rel recS cit rest (acc + s * kw.2) t h kw' h1

/-- Helper: the fold fails with a KeyError at the first weight-map key
outside the three signals. -/
theorem totalScore_error_of_firstMissing (rel recS cit : ℝ) :
    ∀ (w : List (String × ℝ)) (acc : ℝ) (k : String), firstMissingKey w = some k →
    totalScore (scoresMap rel recS cit) w acc = Except.error (ScoreError.keyError k)
  | [], _, _ => by intro h; simp [firstMissingKey] at h
  | kw :: rest, acc, k => by
    intro h
    unfold firstMissingKey at h
    by_cases hv : kw.1 ∈ validKeys
    · rw [if_pos hv] at h
      have hs : (scoresMap rel recS cit kw.1).isSome = true :=
        (scoresMap_isSome_iff rel recS cit kw.1).mpr hv
      cases hm : scoresMap rel recS cit kw.1 with
      | none => rw [hm] at hs; simp at hs
      | some s =>
        unfold totalScore
        rw [hm]
        exact totalScore_error_of_firstMissing rel recS cit rest (acc + s * kw.2) k h
    · rw [if_neg hv] at h
      injection h with h
      subst h
      have hm : scoresMap rel recS cit kw.1 = none := by
        cases hm : scoresMap rel recS cit kw.1 with
        | none => rfl
        | some s =>
          exact absurd ((scoresMap_isSome_iff rel recS cit kw.1).mp (by rw [hm]; rfl)) hv
      unfold totalScore
      rw [hm]

/-- Helper: inversion of _calculate_score on success. -/
theorem calculate_score_ok_iff (env : RankEnv) (a : Document) (q : Option String)
    (w : List (String × ℝ)) (pr : ℝ × Document) :
    calculate_score env a q w = Except.ok pr ↔
    ∃ rel t, relevance_of env a q = Except.ok rel
      ∧ totalScore (scoresMap rel (calculate_recency_score env a)
          (calculate_citation_score env a).1) w 0 = Except.ok t
      ∧ pr = (t, (calculate_citation_score env a).2.1) := by
  unfold calculate_score
  cases hr : relevance_of env a q with
  | error e => simp
  | ok rel =>
    cases ht : totalScore (scoresMap rel (calculate_recency_score env a)
        (calculate_citation_score env a).1) w 0 with
    | error e => simp [ht]
    | ok t =>
      simp only [ht, Except.ok.injEq]
      constructor
      · intro h
        exact ⟨rel, t, rfl, ht, h.symm⟩
      · rintro ⟨rel', t', h1, h2, h3⟩
        subst h3
        rw [← h1] at h2
        rw [ht] at h2
        injection h2 with h2
        rw [h2]

/-- Helper: an embedding failure propagates out of _calculate_score. -/
theorem calculate_score_rel_error (env : RankEnv) (a : Document) (q : Option String)
    (w : List (String × ℝ)) (e : ScoreError)
    (hr : relevance_of env a q = Except.error e) :
    calculate_score env a q w = Except.error e := by
  unfold calculate_score
  simp only [hr]

/-- Helper: with relevance computed, a weight-map key outside the three
signals makes _calculate_score fail with that key's KeyError. -/
theorem calculate_score_key_error (env : RankEnv) (a : Document) (q : Option String)
    (w : List (String × ℝ)) (rel : ℝ) (k : String)
    (hr : relevance_of env a q = Except.ok rel) (hk : firstMissingKey w = some k) :
    calculate_score env a q w = Except.error (ScoreError.keyError k) := by
  unfold calculate_score
  simp only [hr]
  rw [totalScore_error_of_firstMissing _ _ _ w 0 k hk]

/-- Helper: a failure on the first article aborts the scoring loop with
that failure. -/
theorem scoreBatch_cons_error (env : RankEnv) (q : Option String)
    (w : List (String × ℝ)) (a : Document) (as : List Document) (e : ScoreError)
    (hc : calculate_score env a q w = Except.error e) :
    scoreBatch env q w (a :: as) = Except.error e := by
  unfold scoreBatch
  simp only [hc]

/-- Helper: inversion of the scoring loop on success: outputs align
one-to-one, in order, with the input articles, each paired with its
_calculate_score result. -/
theorem scoreBatch_ok_forall₂ (env : RankEnv) (q : Option String) (w : List (String × ℝ)) :
    ∀ (docs : List Document) (l : List (Document × ℝ)),
    scoreBatch env q w docs = Except.ok l →
    List.Forall₂ (fun a pr => ∃ p, calculate_score env a q w = Except.ok p ∧ pr = (p.2, p.1))
      docs l
  | [], l => by
    intro h
    unfold scoreBatch at h
    injection h with h
    subst h
    exact List.Forall₂.nil
  | a :: as, l => by
    intro h
    unfold scoreBatch at h
    cases hc : calculate_score env a q w with
    | error e => simp only [hc] at h; exact absurd h (by simp)
    | ok p =>
      simp only [hc] at h
      cases hr : scoreBatch env q w as with
      | error e => simp only [hr] at h; exact absurd h (by simp)
      | ok rest =>
        simp only [hr, Except.ok.injEq] at h
        subst h
        exact List.Forall₂.cons ⟨p, hc, rfl⟩ (scoreBatch_ok_forall₂ env q w as rest hr)

/-- Helper: when relevance succeeds on every article and every weight-map
key names a signal, the scoring loop succeeds with one output per
article. -/
theorem scoreBatch_ok_of_components (env : RankEnv) (q : Option String)
    (w : List (String × ℝ)) (hkeys : ∀ kw ∈ w, kw.1 ∈ validKeys) :
    ∀ (docs : List Document), (∀ a ∈ docs, ∃ r, relevance_of env a q = Except.ok r) →
    ∃ l, scoreBatch env q w docs = Except.ok l ∧ l.length = docs.length
  | [], _ => ⟨[], rfl, rfl⟩
  | a :: as, hrel => by
    obtain ⟨r, hr⟩ := hrel a (List.mem_cons_self a as)
    obtain ⟨t, ht⟩ := totalScore_ok_of_keys r (calculate_recency_score env a)
      (calculate_citation_score env a).1 w 0 hkeys
    have hcs : calculate_score env a q w
        = Except.ok (t, (calculate_citation_score env a).2.1) :=
      (calculate_score_ok_iff env a q w _).mpr ⟨r, t, hr, ht, rfl⟩
    obtain ⟨l, hl, hlen⟩ := scoreBatch_ok_of_components env q w hkeys as
      (fun a' h' => hrel a' (List.mem_cons_of_mem a h'))
    refine ⟨((calculate_citation_score env a).2.1, t) :: l, ?_, by simp [hlen]⟩
    unfold scoreBatch
    simp only [hcs, hl]

/-- Claim C1: whenever rank_articles succeeds on a non-empty article list
with a supplied (non-empty) weight map, and the per-article scoring pass
yields l, the result pairs each input article (in input order, within l)
with its computed total score, is a permutation of l, is sorted by
non-increasing total score, and articles with equal totals keep their
relative input order. -/
theorem C1_rank_stable_descending_sort (env : RankEnv) (articles : List Document)
    (q : Option String) (w : List (String × ℝ)) (res l : List (Document × ℝ))
    (hne : articles ≠ []) (hw : w ≠ [])
    (hok : rank_articles env articles q (some w) = Except.ok res)
    (hl : scoreBatch env q w articles = Except.ok l) :
    List.Forall₂ (fun a pr => ∃ p, calculate_score env a q w = Except.ok p ∧ pr = (p.2, p.1))
      articles l
    ∧ List.Perm res l
    ∧ res.Pairwise (fun x y => y.2 ≤ x.2)
    ∧ (∀ x y, List.Sublist [x, y] l → x.2 = y.2 → List.Sublist [x, y] res) := by
  have hew : effectiveWeights env.cfg (some w) = w := by
    cases w with
    | nil => exact absurd rfl hw
    | cons kw rest => rfl
  have hie : articles.isEmpty = false := by
    cases articles with
    | nil => exact absurd rfl hne
    | cons a as => rfl
  have hres : res = l.mergeSort scoreGE := by
    unfold rank_articles at hok
    rw [hew] at hok
    simp only [hie, Bool.false_eq_true, if_false, hl] at hok
    injection hok with hok
    exact hok.symm
  have htrans : ∀ x y z : Document × ℝ, scoreGE x y → scoreGE y z → scoreGE x z := by
    intro x y z hxy hyz
    simp only [scoreGE, decide_eq_true_eq] at *
    exact le_trans hyz hxy
  have htotal : ∀ x y : Document × ℝ, scoreGE x y || scoreGE y x := by
    intro x y
    simp only [scoreGE, Bool.or_eq_true, decide_eq_true_eq]
    exact le_total y.2 x.2
  refine ⟨scoreBatch_ok_forall₂ env q w articles l hl, ?_, ?_, ?_⟩
  · rw [hres]
    exact List.mergeSort_perm l scoreGE
  · rw [hres]
    apply List.Pairwise.imp ?_ (List.sorted_mergeSort htrans htotal l)
    intro x y h
    simpa [scoreGE] using h
  · intro x y hsub heq
    rw [hres]
    apply List.pair_sublist_mergeSort htrans htotal ?_ hsub
    simp only [scoreGE, decide_eq_true_eq]
    exact le_of_eq heq.symm

/-- Article with no fields set. -/
def doc0 : Document :=
  { title := none, abstract := none, published := none,
    doi := none, arxiv_id := none, citation_count := none }

/-- Configuration with citations disabled and the documented defaults. -/
noncomputable def cfg0 : RankConfig :=
  { citation_enabled := false, has_fetcher := false, recency_decay_days := 730,
    normalization_max_citations := 1000,
    default_weights := [("relevance", 0.5), ("recency", 0.3), ("citations", 0.2)] }

/-- Benign environment: citations disabled, unparsable dates, embedding
similarity constantly 0. -/
noncomputable def env0 : RankEnv :=
  { cfg := cfg0, net := net404, parseAge := fun _ => none,
    relevance := fun _ _ => Except.ok 0 }

/-- Witness for C1 on a single article with weight map recency:1. -/
theorem C1_witness :
    List.Forall₂
      (fun a pr => ∃ p, calculate_score env0 a none [("recency", 1)] = Except.ok p
        ∧ pr = (p.2, p.1))
      [doc0] [(doc0, 0)]
    ∧ List.Perm [(doc0, (0 : ℝ))] [(doc0, 0)]
    ∧ ([(doc0, (0 : ℝ))]).Pairwise (fun x y => y.2 ≤ x.2)
    ∧ (∀ x y, List.Sublist [x, y] [(doc0, (0 : ℝ))] → x.2 = y.2 →
        List.Sublist [x, y] [(doc0, (0 : ℝ))]) :=
  C1_rank_stable_descending_sort env0 [doc0] none [("recency", 1)] [(doc0, 0)] [(doc0, 0)]
    (by simp) (by simp)
    (by simp [rank_articles, effectiveWeights, scoreBatch, calculate_score, relevance_of,
      calculate_recency_score, calculate_citation_score, totalScore, scoresMap, env0, cfg0, doc0])
    (by simp [scoreBatch, calculate_score, relevance_of, calculate_recency_score,
      calculate_citation_score, totalScore, scoresMap, env0, cfg0, doc0])

/-- Helper: the article returned by the citation scorer agrees with the
input article on every field except possibly citation_count, which
changes only from none to a freshly resolved count. -/
theorem calculate_citation_score_frame (env : RankEnv) (a : Document) :
    (calculate_citation_score env a).2.1.title = a.title
    ∧ (calculate_citation_score env a).2.1.abstract = a.abstract
    ∧ (calculate_citation_score env a).2.1.published = a.published
    ∧ (calculate_citation_score env a).2.1.doi = a.doi
    ∧ (calculate_citation_score env a).2.1.arxiv_id = a.arxiv_id
    ∧ ((calculate_citation_score env a).2.1.citation_count = a.citation_count
       ∨ (a.citation_count = none
          ∧ (get_citation_count env.net a).1 ≠ none
          ∧ (calculate_citation_score env a).2.1.citation_count
              = (get_citation_count env.net a).1)) := by
  unfold calculate_citation_score
  split
  · simp
  · cases hcc : a.citation_count with
    | some c =>
      simp only [hcc]
      split <;> simp [hcc]
    | none =>
      simp only [hcc]
      cases hg : (get_citation_count env.net a).1 with
      | some c =>
        simp only [hg]
        split <;> simp [hg, hcc]
      | none => simp [hg, hcc]

/-- Helper: per-article frame property of _calculate_score: only
citation_count may change, and only by a cache fill. -/
theorem calculate_score_frame (env : RankEnv) (a : Document) (q : Option String)
    (w : List (String × ℝ)) (p : ℝ × Document)
    (h : calculate_score env a q w = Except.ok p) :
    p.2.title = a.title ∧ p.2.abstract = a.abstract ∧ p.2.published = a.published
    ∧ p.2.doi = a.doi ∧ p.2.arxiv_id = a.arxiv_id
    ∧ (p.2.citation_count = a.citation_count
       ∨ (a.citation_count = none
          ∧ (get_citation_count env.net a).1 ≠ none
          ∧ p.2.citation_count = (get_citation_count env.net a).1)) := by
  obtain ⟨rel, t, _, _, hpr⟩ := (calculate_score_ok_iff env a q w p).mp h
  rw [hpr]
  exact calculate_citation_score_frame env a

/-- Claim C9: whenever rank_articles succeeds, every returned article is
one of the input articles (the result is a permutation of the per-article
pass l, which is aligned with the inputs), changed at most in its
citation_count field, and that field is written only when a lookup newly
resolves a count for an article whose cache was empty. -/
theorem C9_only_cache_fill_mutation (env : RankEnv) (articles : List Document)
    (q : Option String) (w? : Option (List (String × ℝ)))
    (res l : List (Document × ℝ))
    (hok : rank_articles env articles q w? = Except.ok res)
    (hl : scoreBatch env q (effectiveWeights env.cfg w?) articles = Except.ok l) :
    List.Perm res l
    ∧ List.Forall₂ (fun a pr =>
        pr.1.title = a.title ∧ pr.1.abstract = a.abstract ∧ pr.1.published = a.published
        ∧ pr.1.doi = a.doi ∧ pr.1.arxiv_id = a.arxiv_id
        ∧ (pr.1.citation_count = a.citation_count
           ∨ (a.citation_count = none
              ∧ (get_citation_count env.net a).1 ≠ none
              ∧ pr.1.citation_count = (get_citation_count env.net a).1))) articles l := by
  have hframe : List.Forall₂ (fun a pr =>
      pr.1.title = a.title ∧ pr.1.abstract = a.abstract ∧ pr.1.published = a.published
      ∧ pr.1.doi = a.doi ∧ pr.1.arxiv_id = a.arxiv_id
      ∧ (pr.1.citation_count = a.citation_count
         ∨ (a.citation_count = none
            ∧ (get_citation_count env.net a).1 ≠ none
            ∧ pr.1.citation_count = (get_citation_count env.net a).1))) articles l := by
    apply List.Forall₂.imp ?_
      (scoreBatch_ok_forall₂ env q (effectiveWeights env.cfg w?) articles l hl)
    intro a pr hex
    obtain ⟨p, hp, hpr⟩ := hex
    subst hpr
    exact calculate_score_frame env a q (effectiveWeights env.cfg w?) p hp
  refine ⟨?_, hframe⟩
  unfold rank_articles at hok
  cases hie : articles.isEmpty with
  | true =>
    have : articles = [] := List.isEmpty_iff.mp hie
    subst this
    simp only [List.isEmpty_nil, if_true] at hok
    injection hok with hok
    subst hok
    unfold scoreBatch at hl
    injection hl with hl
    subst hl
    exact List.Perm.nil
  | false =>
    simp only [hie, Bool.false_eq_true, if_false, hl] at hok
    injection hok with hok
    subst hok
    exact List.mergeSort_perm l scoreGE

/-- Witness for C9 on a single article with default weights. -/
theorem C9_witness :
    List.Perm [(doc0, (0 : ℝ))] [(doc0, 0)]
    ∧ List.Forall₂ (fun a (pr : Document × ℝ) =>
        pr.1.title = a.title ∧ pr.1.abstract = a.abstract ∧ pr.1.published = a.published
        ∧ pr.1.doi = a.doi ∧ pr.1.arxiv_id = a.arxiv_id
        ∧ (pr.1.citation_count = a.citation_count
           ∨ (a.citation_count = none
              ∧ (get_citation_count env0.net a).1 ≠ none
              ∧ pr.1.citation_count = (get_citation_count env0.net a).1)))
        [doc0] [(doc0, (0 : ℝ))] :=
  C9_only_cache_fill_mutation env0 [doc0] none none [(doc0, 0)] [(doc0, 0)]
    (by simp [rank_articles, effectiveWeights, scoreBatch, calculate_score, relevance_of,
      calculate_recency_score, calculate_citation_score, totalScore, scoresMap, env0, cfg0, doc0])
    (by simp [effectiveWeights, scoreBatch, calculate_score, relevance_of,
      calculate_recency_score, calculate_citation_score, totalScore, scoresMap, env0, cfg0, doc0])

/-- Environment whose embedding collaborator always raises. -/
noncomputable def envFail : RankEnv :=
  { cfg := cfg0, net := net404, parseAge := fun _ => none,
    relevance := fun _ _ => Except.error "embedding backend down" }

/-- Counterexample for C2: with a query present, an embedding failure on
the first document aborts the whole batch — rank_articles propagates the
exception and returns no scored results at all, contrary to the claim
that every failing signal degrades to 0.0 and the batch continues. -/
theorem C2_counterexample :
    rank_articles envFail [docBoth, doc0] (some "quantum") (some [("recency", 1)])
      = Except.error (ScoreError.embeddingFailure "embedding backend down") := by
  have hrel : relevance_of envFail docBoth (some "quantum")
      = Except.error (ScoreError.embeddingFailure "embedding backend down") := by
    unfold relevance_of envFail
    simp
  have hcs := calculate_score_rel_error envFail docBoth (some "quantum")
    [("recency", 1)] _ hrel
  have hsb := scoreBatch_cons_error envFail (some "quantum") [("recency", 1)]
    docBoth [doc0] _ hcs
  unfold rank_articles
  simp only [List.isEmpty_cons, Bool.false_eq_true, if_false, effectiveWeights, hsb]

/-- Claim C2 as amended: a malformed publication date degrades that
document's recency signal to 0.0, and an exhausted citation lookup
degrades its citations signal to 0.0, without aborting the batch (when
relevance succeeds everywhere and the weight keys are valid, the batch
returns one scored result per document); but a failure raised by the
embedding collaborator during relevance scoring is NOT caught: it
propagates out of rank_articles and aborts the batch. -/
theorem C2_per_signal_degradation_amended :
    (∀ (env : RankEnv) (a : Document),
      (a.published = none ∨ ∃ s, a.published = some s ∧ env.parseAge s = none) →
      calculate_recency_score env a = 0)
    ∧ (∀ (env : RankEnv) (a : Document),
      (get_citation_count env.net a).1 = none →
      (calculate_citation_score env a).1 = 0)
    ∧ (∀ (env : RankEnv) (docs : List Document) (q : Option String)
        (w : List (String × ℝ)),
      w ≠ [] → (∀ kw ∈ w, kw.1 ∈ validKeys) →
      (∀ a ∈ docs, ∃ r, relevance_of env a q = Except.ok r) →
      ∃ res, rank_articles env docs q (some w) = Except.ok res
        ∧ res.length = docs.length)
    ∧ (∀ (env : RankEnv) (d : Document) (rest : List Document) (q : Option String)
        (w : List (String × ℝ)) (m : String),
      relevance_of env d q = Except.error (ScoreError.embeddingFailure m) →
      rank_articles env (d :: rest) q (some w)
        = Except.error (ScoreError.embeddingFailure m)) := by
  refine ⟨?_, ?_, ?_, ?_⟩
  · intro env a h
    unfold calculate_recency_score
    rcases h with h | ⟨s, hs, hp⟩
    · simp [h]
    · simp [hs, hp]
  · intro env a hget
    unfold calculate_citation_score
    split
    · rfl
    · cases hcc : a.citation_count with
      | some c =>
        exfalso
        have : (get_citation_count env.net a).1 = some c := by
          unfold get_citation_count
          simp [hcc]
        rw [hget] at this
        exact Option.noConfusion this
      | none =>
        simp only [hcc, hget]
  · intro env docs q w hw hkeys hrel
    obtain ⟨l, hl, hlen⟩ := scoreBatch_ok_of_components env q w hkeys docs hrel
    have hew : effectiveWeights env.cfg (some w) = w := by
      cases w with
      | nil => exact absurd rfl hw
      | cons kw rest => rfl
    cases docs with
    | nil =>
      refine ⟨[], ?_, by simp⟩
      unfold rank_articles
      simp
    | cons d ds =>
      refine ⟨l.mergeSort scoreGE, ?_, ?_⟩
      · unfold rank_articles
        rw [hew]
        simp only [List.isEmpty_cons, Bool.false_eq_true, if_false, hl]
      · simp only [List.length_mergeSort]
        rw [hlen]
  · intro env d rest q w m hrel
    have hcs := calculate_score_rel_error env d q (effectiveWeights env.cfg (some w)) _ hrel
    have hsb := scoreBatch_cons_error env q (effectiveWeights env.cfg (some w)) d rest _ hcs
    unfold rank_articles
    simp only [List.isEmpty_cons, Bool.false_eq_true, if_false, hsb]

/-- Witness for the amended C2: a document with an unparsable date and a
document with no identifiers both score, and the batch completes with two
results, while the same batch under a failing embedding aborts. -/
theorem C2_witness :
    calculate_recency_score env0 docBoth = 0
    ∧ (calculate_citation_score env0 doc0).1 = 0
    ∧ (∃ res, rank_articles env0 [docBoth, doc0] none (some [("recency", 1)])
        = Except.ok res ∧ res.length = [docBoth, doc0].length)
    ∧ rank_articles envFail [doc0] (some "q") (some [("recency", 1)])
        = Except.error (ScoreError.embeddingFailure "embedding backend down") :=
  ⟨C2_per_signal_degradation_amended.1 env0 docBoth (Or.inl rfl),
   C2_per_signal_degradation_amended.2.1 env0 doc0 (by decide),
   C2_per_signal_degradation_amended.2.2.1 env0 [docBoth, doc0] none [("recency", 1)]
     (by simp) (by decide) (by intro a _; exact ⟨0, rfl⟩),
   C2_per_signal_degradation_amended.2.2.2 envFail doc0 [] (some "q") [("recency", 1)]
     "embedding backend down" (by unfold relevance_of envFail; simp)⟩

/-- Helper: a weight map with a key outside the three signals is
non-empty. -/
theorem firstMissingKey_ne_nil (w : List (String × ℝ)) (k : String)
    (h : firstMissingKey w = some k) : w ≠ [] := by
  cases w with
  | nil => simp [firstMissingKey] at h
  | cons kw rest => simp

/-- Claim C10: a supplied weight map containing a key other than
relevance, recency, citations makes rank_articles fail with that key's
KeyError while scoring the first document (provided its relevance step
itself succeeds); conversely, a successful rank_articles run on a
non-empty article list means every supplied weight-map key was one of the
three signals. -/
theorem C10_weight_keys_exactly_signals :
    (∀ (env : RankEnv) (d : Document) (rest : List Document) (q : Option String)
        (w : List (String × ℝ)) (k : String) (r : ℝ),
      firstMissingKey w = some k →
      relevance_of env d q = Except.ok r →
      rank_articles env (d :: rest) q (some w) = Except.error (ScoreError.keyError k))
    ∧ (∀ (env : RankEnv) (docs : List Document) (q : Option String)
        (w : List (String × ℝ)) (res : List (Document × ℝ)),
      rank_articles env docs q (some w) = Except.ok res →
      docs ≠ [] →
      ∀ kw ∈ w, kw.1 ∈ validKeys) := by
  constructor
  · intro env d rest q w k r hk hrel
    have hw : w ≠ [] := firstMissingKey_ne_nil w k hk
    have hew : effectiveWeights env.cfg (some w) = w := by
      cases w with
      | nil => exact absurd rfl hw
      | cons kw wr => rfl
    have hcs : calculate_score env d q w = Except.error (ScoreError.keyError k) :=
      calculate_score_key_error env d q w r k hrel hk
    have hsb := scoreBatch_cons_error env q w d rest _ hcs
    unfold rank_articles
    rw [hew]
    simp only [List.isEmpty_cons, Bool.false_eq_true, if_false, hsb]
  · intro env docs q w res hok hne kw hkw
    cases w with
    | nil => simp at hkw
    | cons kw0 wr =>
      cases docs with
      | nil => exact absurd rfl hne
      | cons d ds =>
        unfold rank_articles at hok
        simp only [List.isEmpty_cons, Bool.false_eq_true, if_false] at hok
        have hew : effectiveWeights env.cfg (some (kw0 :: wr)) = kw0 :: wr := rfl
        rw [hew] at hok
        cases hsb : scoreBatch env q (kw0 :: wr) (d :: ds) with
        | error e => rw [hsb] at hok; exact absurd hok (by simp)
        | ok l =>
          have hfa := scoreBatch_ok_forall₂ env q (kw0 :: wr) (d :: ds) l hsb
          cases hfa with
          | cons hd htl =>
            obtain ⟨p, hp, _⟩ := hd
            obtain ⟨rel, t, _, ht, _⟩ := (calculate_score_ok_iff env d q (kw0 :: wr) p).mp hp
            exact totalScore_ok_keys rel (calculate_recency_score env d)
              (calculate_citation_score env d).1 (kw0 :: wr) 0 t ht kw hkw

/-- Witness for C10: the weight map [("oops", 1)] makes a one-article
ranking fail with KeyError "oops". -/
theorem C10_witness :
    rank_articles env0 [doc0] none (some [("oops", 1)])
      = Except.error (ScoreError.keyError "oops") :=
  C10_weight_keys_exactly_signals.1 env0 doc0 [] none [("oops", 1)] "oops" 0
    (by decide) rfl

end Herald
